import Mathlib

/-!
Verification development for the disSat repository (stacykim/disSat).

The repository is a semi-analytic Monte Carlo model generating synthetic
dwarf-satellite populations. This file gives a shallow embedding of the
three source files

  * src/baryons/smhm.py         (SMHM relations and the SMHM wrapper)
  * src/baryons/galaxy_size.py  (galaxy-size relations)
  * src/satpops.py              (the SatellitePopulation pipeline class)

and proves the specification claims about them.

Modelling conventions:

  * Python floats are idealized as exact rationals.  The transcendental
    float operations used by the source (the power operator, np.exp,
    np.log, np.log10) are abstract function parameters, bundled in
    FloatOps; none of the claims depends on their values.
  * numpy random draws are explicit inputs: each draw that the source
    takes from the global numpy RNG appears as a rational argument or as
    a pre-supplied list of rationals, and np.random.normal(loc=0, scale=s)
    is modelled as s * rand with rand a standard-normal draw.
  * warnings.warn is modelled by returning a list of warning strings next
    to the value.
  * Vectorized numpy expressions are modelled elementwise over lists; a
    vectorized relation with per-element scatter draws is an abstract
    function of the element index and the element value.
  * Code of the repository that is outside src/ (the hosts, dark_matter,
    relations, vutils modules and the data tables under data/smhm/) enters
    only through abstract parameters: none of the claims is decided by it.
-/

/-- Abstract float operations: fpow is the Python float power operator
x ** y, fexp is np.exp, flog is np.log, flog10 is np.log10. -/
structure FloatOps where
  fpow : ℚ → ℚ → ℚ
  fexp : ℚ → ℚ
  flog : ℚ → ℚ
  flog10 : ℚ → ℚ

/-- Interpolation tables built at import time from the data files
data/smhm/dooley.dat, brook.dat, behroozi.dat (the data files are not part
of the source tree, so the interpolants are abstract). Each field is the
corresponding interp1d of log stellar mass against log halo mass. -/
structure SMHMTables where
  mstarD17 : ℚ → ℚ
  mstarB14 : ℚ → ℚ
  mstarB13 : ℚ → ℚ

/-- Embedding of the class SMHM of src/baryons/smhm.py: an instance is
described by its sample_scatter flag, its central_value method (returning
the emitted warnings next to the value) and its scatter method (returning
the emitted warnings next to the dispersion in dex). -/
structure SMHM where
  sample_scatter : Bool
  central_value : ℚ → ℚ → List String × ℚ
  scatter : List String × ℚ

/-- SMHM.__call__ (src/baryons/smhm.py lines 31-36): median = central_value;
with scatter on, multiply by 10 ** normal(loc=0, scale=scatter()); the
standard-normal draw is the explicit argument rand. With scatter off, the
scatter method is never invoked, so no warnings from it are emitted. -/
def SMHM.call (ops : FloatOps) (r : SMHM) (rand mass z : ℚ) : List String × ℚ :=
  let median := r.central_value mass z
  if r.sample_scatter then
    (median.1 ++ r.scatter.1, median.2 * ops.fpow 10 (r.scatter.2 * rand))
  else median

/-- Moster13.central_value (src/baryons/smhm.py lines 48-66), with the
constants named as in the source. -/
def Moster13.central_value (ops : FloatOps) (mass z : ℚ) : ℚ :=
  let M10_M13 : ℚ := 11.590
  let M11_M13 : ℚ := 1.195
  let N10_M13 : ℚ := 0.0351
  let N11_M13 : ℚ := -0.0247
  let b10_M13 : ℚ := 1.376
  let b11_M13 : ℚ := -0.826
  let g10_M13 : ℚ := 0.608
  let g11_M13 : ℚ := 0.329
  let M1 := ops.fpow 10 (M10_M13 + M11_M13 * z / (z + 1))
  let N := N10_M13 + N11_M13 * z / (z + 1)
  let beta := b10_M13 + b11_M13 * z / (z + 1)
  let gamma := g10_M13 + g11_M13 * z / (z + 1)
  2 * N * mass / (ops.fpow (mass / M1) (-beta) + ops.fpow (mass / M1) gamma)

/-- The Moster13 instance built by Moster13(scatter=sc): central_value
emits no warnings, scatter() returns 0.15 with no warnings. -/
def Moster13.rel (ops : FloatOps) (sc : Bool) : SMHM where
  sample_scatter := sc
  central_value := fun mass z => ([], Moster13.central_value ops mass z)
  scatter := ([], 0.15)

/-- Dooley17.central_value (src/baryons/smhm.py lines 83-86): warns when
z is not 0, and returns np.exp(mstarD17(np.log(mass))), which does not
depend on z. -/
def Dooley17.central_value (ops : FloatOps) (tbl : SMHMTables) (mass z : ℚ) :
    List String × ℚ :=
  ((if z ≠ 0 then ["Dooley+ 2017 SMHM has no support for z>0, using z=0 relation!"] else []),
   ops.fexp (tbl.mstarD17 (ops.flog mass)))

/-- The Dooley17 instance built by Dooley17(scatter=sc). -/
def Dooley17.rel (ops : FloatOps) (tbl : SMHMTables) (sc : Bool) : SMHM where
  sample_scatter := sc
  central_value := fun mass z => Dooley17.central_value ops tbl mass z
  scatter := (["scatter in Dooley+ 2017 SMHM relation not quantified, using Moster+ 2013 scatter!"], 0.15)

/-- Brook14.central_value (src/baryons/smhm.py lines 108-111): warns when
z is not 0, and returns np.exp(mstarB14(np.log(mass))). -/
def Brook14.central_value (ops : FloatOps) (tbl : SMHMTables) (mass z : ℚ) :
    List String × ℚ :=
  ((if z ≠ 0 then ["Brook+ 2014 SMHM has no support for z>0, using z=0 relation!"] else []),
   ops.fexp (tbl.mstarB14 (ops.flog mass)))

/-- The Brook14 instance built by Brook14(scatter=sc). -/
def Brook14.rel (ops : FloatOps) (tbl : SMHMTables) (sc : Bool) : SMHM where
  sample_scatter := sc
  central_value := fun mass z => Brook14.central_value ops tbl mass z
  scatter := (["scatter in Brook+ 2014 SMHM relation not quantified, using Moster+ 2013 scatter!"], 0.15)

/-- Behroozi13.central_value (src/baryons/smhm.py lines 132-135): warns
when z is not 0, and returns np.exp(mstarB13(np.log(mass))). -/
def Behroozi13.central_value (ops : FloatOps) (tbl : SMHMTables) (mass z : ℚ) :
    List String × ℚ :=
  ((if z ≠ 0 then ["Behroozi+ 2013 SMHM relation for z>0 not implemented, using z=0 relation!"] else []),
   ops.fexp (tbl.mstarB13 (ops.flog mass)))

/-- The Behroozi13 instance built by Behroozi13(scatter=sc). -/
def Behroozi13.rel (ops : FloatOps) (tbl : SMHMTables) (sc : Bool) : SMHM where
  sample_scatter := sc
  central_value := fun mass z => Behroozi13.central_value ops tbl mass z
  scatter := (["scatter in Behroozi+ 2013 SMHM relation not quantified, using Moster+ 2013 scatter!"], 0.15)

/-- Embedding of the class GalaxySize of src/baryons/galaxy_size.py. -/
structure GalaxySize where
  sample_scatter : Bool
  central_value : ℚ → ℚ
  scatter : ℚ

/-- GalaxySize.__call__ (src/baryons/galaxy_size.py lines 21-26); rand is
the explicit standard-normal draw. -/
def GalaxySize.call (ops : FloatOps) (g : GalaxySize) (rand mstar : ℚ) : ℚ :=
  let median := g.central_value mstar
  if g.sample_scatter then median * ops.fpow 10 (g.scatter * rand) else median

/-- Read17.central_value (src/baryons/galaxy_size.py lines 40-42):
10 ** (0.268 * np.log10(mstar) - 2.11). -/
def Read17.central_value (ops : FloatOps) (mstar : ℚ) : ℚ :=
  ops.fpow 10 (0.268 * ops.flog10 mstar - 2.11)

/-- The Read17 instance built by Read17(scatter=sc); scatter() = 0.234. -/
def Read17.rel (ops : FloatOps) (sc : Bool) : GalaxySize where
  sample_scatter := sc
  central_value := fun mstar => Read17.central_value ops mstar
  scatter := 0.234

/-- The wrapper function SMHM of src/baryons/smhm.py lines 147-186 (in the
source it shadows the class of the same name): dispatches on the model
string, raising ValueError for an unrecognized model; a raise is modelled
as Except.error carrying the message. -/
def SMHM_wrapper (ops : FloatOps) (tbl : SMHMTables) (rand mhalo : ℚ)
    (model : String) (z : ℚ) (sc : Bool) : Except String (List String × ℚ) :=
  if model = "m13" then Except.ok (SMHM.call ops (Moster13.rel ops sc) rand mhalo z)
  else if model = "d17" then Except.ok (SMHM.call ops (Dooley17.rel ops tbl sc) rand mhalo z)
  else if model = "b14" then Except.ok (SMHM.call ops (Brook14.rel ops tbl sc) rand mhalo z)
  else if model = "b13" then Except.ok (SMHM.call ops (Behroozi13.rel ops tbl sc) rand mhalo z)
  else Except.error ("No support for SMHM relation " ++ model ++ "!")

/-- The published Moster+ 2013 formula exactly as the specification claim
states it: 2*N*m / ((m/M1)^(-beta) + (m/M1)^gamma) with
M1 = 10^(11.590 + 1.195*z/(z+1)), N = 0.0351 - 0.0247*z/(z+1),
beta = 1.376 - 0.826*z/(z+1), gamma = 0.608 + 0.329*z/(z+1); the float
power operator is the given fpow. -/
def Moster13_formula_spec (fpow : ℚ → ℚ → ℚ) (m z : ℚ) : ℚ :=
  let M1 := fpow 10 (11.590 + 1.195 * z / (z + 1))
  let N : ℚ := 0.0351 - 0.0247 * z / (z + 1)
  let beta : ℚ := 1.376 - 0.826 * z / (z + 1)
  let gamma : ℚ := 0.608 + 0.329 * z / (z + 1)
  2 * N * m / (fpow (m / M1) (-beta) + fpow (m / M1) gamma)

/-- The numpy global RNG, modelled as a stream of pre-drawn rationals. -/
def RngState : Type := List ℚ

/-- Moster13.central_value with the global RNG state threaded through:
the source method contains no call into numpy.random, so the embedding
neither reads nor advances the state. -/
def Moster13.central_value_rng (ops : FloatOps) (mass z : ℚ) (rng : RngState) :
    ℚ × RngState :=
  (Moster13.central_value ops mass z, rng)

/-- Read17.central_value with the global RNG state threaded through; the
source method contains no call into numpy.random. -/
def Read17.central_value_rng (ops : FloatOps) (mstar : ℚ) (rng : RngState) :
    ℚ × RngState :=
  (Read17.central_value ops mstar, rng)

/-!
Embedding of src/satpops.py.

The SatellitePopulation instance dictionary is a structure: the plain
parameter attributes, the dark_matter and host objects, the four relation
attributes set in MilkyWaySatellites.__init__ (concentration, smhm,
occupation_fraction, rhalf_2D), the further Relation attributes copied in
from the dark_matter and host dictionaries (the assoc list rels; their
names are assumed distinct from the four fixed attribute names), the
properties dictionary and the two entries of the cached parameters
dictionary that get_relations consults. Python object comparison with ==
on these model classes is identity, modelled by a numeric id field.
-/

/-- A Relation attribute value as satpops.py uses it: its name, its
sample_scatter flag, whether it has a sample_scatter attribute at all
(sources_of_scatter checks dir(relation)), whether it is a
dark_matter.models.ModifiedConcentration instance, and its vectorized
value functions, abstract, indexed by element position so that independent
per-element scatter draws are representable (fn2 for two-argument
relations such as concentration(mass, z) or a modified concentration
applied as relation(mass, c, dm, z); fn1 for one-argument relations such
as rhalf_2D(mstar) or mask_dark_galaxies(mass)). -/
structure RelationObj where
  name : String
  sample_scatter : Bool
  has_scatter_attr : Bool
  is_modified_concentration : Bool
  fn2 : ℕ → ℚ → ℚ → ℚ
  fn1 : ℕ → ℚ → ℚ

/-- The dark matter model object as satpops.py consults it. The
transfer_function field folds in mWDM and, like the drawn uniforms it is
compared against, is abstract. -/
structure DarkMatterObj where
  id : ℕ
  name : String
  relations : List (String × RelationObj)
  is_wdm : Bool
  transfer_function : ℚ → ℚ
  is_sidm : Bool
  sigSI : ℚ

/-- The host object as satpops.py consults it. subhalo_mass_draw is the
list of masses returned by host.subhalo_mass_function(min_mass, mass, n)
for the realization being generated (a random draw, supplied as data). -/
structure HostObj where
  id : ℕ
  name : String
  relations : List (String × RelationObj)
  number_of_subhalos : ℕ
  subhalo_mass_draw : List ℚ

/-- The properties dictionary written by generate_population. -/
structure Properties where
  mass : List ℚ
  c200 : List ℚ
  mass_stars : List ℚ
  rhalf2D : List ℚ
  density_profile : List String
  sigLOS : List ℚ

/-- The empty properties dictionary set by _finish_setup. -/
def Properties.empty : Properties :=
  { mass := [], c200 := [], mass_stars := [], rhalf2D := [],
    density_profile := [], sigLOS := [] }

/-- The SatellitePopulation instance state. wdm_uniform_draws is the list
of random.random() draws consumed by the WDM branch of
_sample_subhalo_masses. -/
structure SatellitePopulation where
  z_infall : ℚ
  min_mass : ℚ
  massdef : String
  density_profile : String
  mswitch_profile : ℚ
  mleft : ℚ
  dark_matter : DarkMatterObj
  host : HostObj
  concentration : RelationObj
  smhm : RelationObj
  occupation_fraction : RelationObj
  rhalf_2D : RelationObj
  rels : List (String × RelationObj)
  wdm_uniform_draws : List ℚ
  properties : Properties
  params_dark_matter : ℕ
  params_host : ℕ

/-- The signature of vutils.mvir2sigLOS as satpops.py calls it, applied
elementwise: arguments mass, density profile, mleft, zin, mstar, Re0,
c200, cNFW_method, sigmaSI (None modelled as Option.none). The function
itself lives outside src/, so it is an abstract parameter. -/
def Mvir2SigLOS : Type :=
  ℚ → String → ℚ → ℚ → ℚ → ℚ → ℚ → String → Option ℚ → ℚ

/-- Elementwise map carrying the element index, the shape in which the
embedding applies a vectorized relation to an array. -/
def listIdxMap {α β : Type} (f : ℕ → α → β) : ℕ → List α → List β
  | _, [] => []
  | k, a :: as => f k a :: listIdxMap f (k + 1) as

/-- Elementwise map with index over two parallel arrays. -/
def listIdxMap2 {α β γ : Type} (f : ℕ → α → β → γ) : ℕ → List α → List β → List γ
  | k, a :: as, b :: bs => f k a b :: listIdxMap2 f (k + 1) as bs
  | _, _, _ => []

/-- Elementwise combination of four parallel arrays. -/
def zip4With {α β γ δ ε : Type} (f : α → β → γ → δ → ε) :
    List α → List β → List γ → List δ → List ε
  | a :: as, b :: bs, c :: cs, d :: ds => f a b c d :: zip4With f as bs cs ds
  | _, _, _, _ => []

/-- Elementwise combination of five parallel arrays. -/
def zip5With {α β γ δ ε ζ : Type} (f : α → β → γ → δ → ε → ζ) :
    List α → List β → List γ → List δ → List ε → List ζ
  | a :: as, b :: bs, c :: cs, d :: ds, e :: es =>
      f a b c d e :: zip5With f as bs cs ds es
  | _, _, _, _, _ => []

/-- Python dictionary assignment d[k] = v on an assoc list: overwrite in
place when the key exists, append otherwise. -/
def dictUpdate (d : List (String × RelationObj)) (k : String) (v : RelationObj) :
    List (String × RelationObj) :=
  if d.any (fun p => p.1 = k) then d.map (fun p => if p.1 = k then (k, v) else p)
  else d ++ [(k, v)]

/-- Copy every Relation attribute of a model dictionary into the instance
dictionary, as the loops of get_relations and _finish_setup do. -/
def updateRels (d : List (String × RelationObj))
    (found : List (String × RelationObj)) : List (String × RelationObj) :=
  found.foldl (fun acc p => dictUpdate acc p.1 p.2) d

/-- The four Relation attributes installed by MilkyWaySatellites.__init__,
in instance-dictionary insertion order; iterating the instance dictionary
for Relation values visits these first, then rels. -/
def pipelineRels (s : SatellitePopulation) : List (String × RelationObj) :=
  [("concentration", s.concentration), ("smhm", s.smhm),
   ("occupation_fraction", s.occupation_fraction), ("rhalf_2D", s.rhalf_2D)]

/-- SatellitePopulation.get_relations (src/satpops.py lines 55-74).
When the cached parameters entry disagrees with the current dark_matter
model, the model relations are copied in and the cache entry is
reassigned (line 62).  The host branch copies relations the same way, but
source line 68 reads `self.parameters['host'] == self.host`: a comparison
expression, not an assignment, so the host cache entry is left unchanged
by this embedding exactly as it is by the code.  Returns the updated
state and the dictionary of Relation attributes. -/
def get_relations (s : SatellitePopulation) :
    SatellitePopulation × List (String × RelationObj) :=
  let rels1 := if s.params_dark_matter ≠ s.dark_matter.id then
      updateRels s.rels s.dark_matter.relations else s.rels
  let pdm1 := if s.params_dark_matter ≠ s.dark_matter.id then
      s.dark_matter.id else s.params_dark_matter
  let rels2 := if s.params_host ≠ s.host.id then
      updateRels rels1 s.host.relations else rels1
  let s2 := { s with rels := rels2, params_dark_matter := pdm1 }
  (s2, pipelineRels s2 ++ s2.rels)

/-- SatellitePopulation.get_input_parameters (src/satpops.py lines 32-42):
returns every instance attribute except properties; reads only. -/
def get_input_parameters (s : SatellitePopulation) :
    SatellitePopulation ×
      (DarkMatterObj × HostObj × List (String × RelationObj) ×
        List (String × ℚ) × List String) :=
  (s, (s.dark_matter, s.host, pipelineRels s ++ s.rels,
       [("z_infall", s.z_infall), ("min_mass", s.min_mass),
        ("mswitch_profile", s.mswitch_profile), ("mleft", s.mleft)],
       [s.massdef, s.density_profile]))

/-- SatellitePopulation.print_input_parameters (src/satpops.py lines
44-52): prints one line per attribute other than properties and
parameters (the printed text is abbreviated here; the source also prints
the values and swaps the class labels of dark_matter and host); reads
only. -/
def print_input_parameters (s : SatellitePopulation) :
    SatellitePopulation × List String :=
  (s, ["dark_matter : " ++ s.dark_matter.name ++ " (class Host)",
       "host : " ++ s.host.name ++ " (class DarkMatterModel)"]
      ++ (pipelineRels s ++ s.rels).map (fun p => p.1 ++ " : " ++ p.2.name)
      ++ ["z_infall (value)", "min_mass (value)", "massdef (value)",
          "density_profile (value)", "mswitch_profile (value)", "mleft (value)"])

/-- SatellitePopulation.print_relations (src/satpops.py lines 77-80):
calls get_relations and prints one line per relation. -/
def print_relations (s : SatellitePopulation) :
    SatellitePopulation × List String :=
  let gr := get_relations s
  (gr.1, gr.2.map (fun p => p.1 ++ " : " ++ p.2.name))

/-- SatellitePopulation.sources_of_scatter (src/satpops.py lines 82-88):
calls get_relations and collects the sample_scatter flag of every
relation that has one. -/
def sources_of_scatter (s : SatellitePopulation) :
    SatellitePopulation × List (String × Bool) :=
  let gr := get_relations s
  (gr.1, (gr.2.filter (fun p => p.2.has_scatter_attr)).map
      (fun p => (p.1, p.2.sample_scatter)))

/-- The assignment self.__dict__[name].sample_scatter = b performed by
set_scatter for one entry: it touches the named Relation attribute,
whether one of the four fixed ones or an entry of rels. -/
def setScatterByName (st : SatellitePopulation) (n : String) (b : Bool) :
    SatellitePopulation :=
  if n = "concentration" then
    { st with concentration := { st.concentration with sample_scatter := b } }
  else if n = "smhm" then
    { st with smhm := { st.smhm with sample_scatter := b } }
  else if n = "occupation_fraction" then
    { st with occupation_fraction := { st.occupation_fraction with sample_scatter := b } }
  else if n = "rhalf_2D" then
    { st with rhalf_2D := { st.rhalf_2D with sample_scatter := b } }
  else
    { st with rels := (st.rels.map
        (fun p => if p.1 = n then (p.1, { p.2 with sample_scatter := b }) else p)) }

/-- SatellitePopulation.set_scatter (src/satpops.py lines 90-97): calls
get_relations, then sets the sample_scatter flag of each named relation. -/
def set_scatter (s : SatellitePopulation) (sources : List (String × Bool)) :
    SatellitePopulation :=
  let gr := get_relations s
  sources.foldl (fun acc p => setScatterByName acc p.1 p.2) gr.1

/-- SatellitePopulation._sample_subhalo_masses (src/satpops.py lines
100-109): draws the subhalo masses; for a WDM model, keeps mass m exactly
when the paired uniform draw is at most transfer_function(m), and resets
host.number_of_subhalos to the number kept (sum(mask)). Returns the mass
list together with the resulting number_of_subhalos. -/
def _sample_subhalo_masses (s : SatellitePopulation) : List ℚ × ℕ :=
  let m := s.host.subhalo_mass_draw
  if s.dark_matter.is_wdm then
    let kept := (m.zip s.wdm_uniform_draws).filter
        (fun p => decide (p.2 ≤ s.dark_matter.transfer_function p.1))
    (kept.map Prod.fst, kept.length)
  else (m, s.host.number_of_subhalos)

/-- SatellitePopulation._sample_concentrations (src/satpops.py lines
111-118): c = concentration(mass, z_infall); then get_relations is
called (mutating the state) and its dictionary is scanned for a
ModifiedConcentration relation, which, when present (first match), is
applied as relation(mass, c, dark_matter, z=z_infall). -/
def _sample_concentrations (s : SatellitePopulation) :
    SatellitePopulation × List ℚ :=
  let c := listIdxMap (fun i m => s.concentration.fn2 i m s.z_infall) 0
      s.properties.mass
  let gr := get_relations s
  (gr.1,
   match gr.2.findSome?
       (fun p => if p.2.is_modified_concentration then some p.2 else none) with
   | some r => listIdxMap2 (fun i m c0 => r.fn2 i m c0) 0 s.properties.mass c
   | none => c)

/-- SatellitePopulation._sample_stellar_masses (src/satpops.py lines
120-123): mstar = smhm(mass, z_infall) * occupation_fraction.mask_dark_galaxies(mass). -/
def _sample_stellar_masses (s : SatellitePopulation) : List ℚ :=
  listIdxMap
    (fun i m => s.smhm.fn2 i m s.z_infall * s.occupation_fraction.fn1 i m) 0
    s.properties.mass

/-- SatellitePopulation._sample_galaxy_sizes (src/satpops.py lines
125-129): rhalf starts as zeros and only the entries with mstar > 0 are
assigned rhalf_2D(mstar). -/
def _sample_galaxy_sizes (s : SatellitePopulation) : List ℚ :=
  listIdxMap (fun i ms => if 0 < ms then s.rhalf_2D.fn1 i ms else 0) 0
    s.properties.mass_stars

/-- The density-profile tagging inlined in generate_population
(src/satpops.py lines 24-28): for a profile other than mix, every
satellite is tagged with the configured profile string; for mix, the tags
start as coreNFW and the entries with mass below mswitch_profile are
reassigned nfw (the tag array and the mass array have equal length: for
mix, number_of_subhalos equals the mass count). -/
def _assign_density_profiles (s : SatellitePopulation) : List String :=
  if s.density_profile ≠ "mix" then
    List.replicate s.host.number_of_subhalos s.density_profile
  else
    s.properties.mass.map
      (fun m => if m < s.mswitch_profile then "nfw" else "coreNFW")

/-- The short concentration-model tag computed by
sample_velocity_dispersions (src/satpops.py lines 133-135):
c_model[0].lower() + c_model[-2:], with d19 replaced by d15. -/
def c_model_short (c_model : String) : String :=
  let t := c_model.front.toLower.toString ++ c_model.takeRight 2
  if t = "d19" then "d15" else t

/-- SatellitePopulation.sample_velocity_dispersions (src/satpops.py lines
131-172), elementwise. Away from mix, mvir2sigLOS is applied to every
satellite with the configured profile and, for an SIDM model, sigmaSI =
dark_matter.sigSI (None otherwise). For mix, sigLOS starts as zeros and
only the satellites with mstar > 0 get a value: those tagged coreNFW via
mvir2sigLOS(..., coreNFW, ...), those tagged nfw via
mvir2sigLOS(..., nfw, ...) (sigmaSI is not passed in the mix branch). -/
def sample_velocity_dispersions (f : Mvir2SigLOS) (s : SatellitePopulation) :
    List ℚ :=
  let short := c_model_short s.concentration.name
  if s.density_profile ≠ "mix" then
    zip4With
      (fun m ms r c => f m s.density_profile s.mleft s.z_infall ms r c short
        (if s.dark_matter.is_sidm then some s.dark_matter.sigSI else none))
      s.properties.mass s.properties.mass_stars s.properties.rhalf2D
      s.properties.c200
  else
    zip5With
      (fun m ms r c tag =>
        if 0 < ms ∧ tag = "coreNFW" then
          f m "coreNFW" s.mleft s.z_infall ms r c short none
        else if 0 < ms ∧ tag = "nfw" then
          f m "nfw" s.mleft s.z_infall ms r c short none
        else 0)
      s.properties.mass s.properties.mass_stars s.properties.rhalf2D
      s.properties.c200 s.properties.density_profile

/-- SatellitePopulation.generate_population (src/satpops.py lines 13-30):
the five sampling stages in source order, each stage writing its
properties entry before the next runs, with the density-profile tagging
between sizes and velocity dispersions. -/
def generate_population (f : Mvir2SigLOS) (s : SatellitePopulation) :
    SatellitePopulation :=
  let mres := _sample_subhalo_masses s
  let s1 := { s with host := { s.host with number_of_subhalos := mres.2 },
                     properties := { s.properties with mass := mres.1 } }
  let cres := _sample_concentrations s1
  let s2 := { cres.1 with properties := { cres.1.properties with c200 := cres.2 } }
  let s3 := { s2 with properties :=
      { s2.properties with mass_stars := _sample_stellar_masses s2 } }
  let s4 := { s3 with properties :=
      { s3.properties with rhalf2D := _sample_galaxy_sizes s3 } }
  let s5 := { s4 with properties :=
      { s4.properties with density_profile := _assign_density_profiles s4 } }
  { s5 with properties :=
      { s5.properties with sigLOS := sample_velocity_dispersions f s5 } }

/-- SatellitePopulation._finish_setup (src/satpops.py lines 175-187):
empties properties, copies the Relation attributes of dark_matter and
then of host into the instance dictionary, and caches the parameters
dictionary (in particular the current dark_matter and host). -/
def _finish_setup (s : SatellitePopulation) : SatellitePopulation :=
  let s1 := { s with properties := Properties.empty }
  let s2 := { s1 with rels := (updateRels
      (updateRels s1.rels s1.dark_matter.relations) s1.host.relations) }
  { s2 with params_dark_matter := s2.dark_matter.id,
            params_host := s2.host.id }

/-!
Concrete instances used by the witness theorems. The abstract float
operations and relation value functions are instantiated with simple
rational functions; the claims hold for every instantiation.
-/

/-- Concrete float operations for witnesses. -/
def ops0 : FloatOps where
  fpow := fun a b => a + b
  fexp := fun x => x
  flog := fun x => x
  flog10 := fun x => x

/-- Concrete interpolation tables for witnesses. -/
def tbl0 : SMHMTables where
  mstarD17 := fun x => x
  mstarB14 := fun x => x
  mstarB13 := fun x => x

/-- A concrete SMHM relation instance with scatter sampling disabled. -/
def r0 : SMHM where
  sample_scatter := false
  central_value := fun mass z => ([], mass + z)
  scatter := ([], 0.15)

/-- A concrete GalaxySize relation instance with scatter sampling
disabled. -/
def g0 : GalaxySize where
  sample_scatter := false
  central_value := fun mstar => 2 * mstar
  scatter := 0.234

/-- A concrete velocity-dispersion predictor for witnesses. -/
def f0 : Mvir2SigLOS := fun m _ _ _ _ _ _ _ _ => m + 1

/-- A concrete concentration relation for witnesses. -/
def relConc : RelationObj where
  name := "Diemer19"
  sample_scatter := true
  has_scatter_attr := true
  is_modified_concentration := false
  fn2 := fun _ m _ => m / 10
  fn1 := fun _ m => m

/-- A concrete SMHM relation attribute for witnesses. -/
def relSmhm : RelationObj where
  name := "Moster13"
  sample_scatter := true
  has_scatter_attr := true
  is_modified_concentration := false
  fn2 := fun _ m _ => m / 100
  fn1 := fun _ m => m

/-- A concrete occupation-fraction relation whose mask_dark_galaxies
returns the constant occ. -/
def relOcc (occ : ℚ) : RelationObj where
  name := "Dooley17"
  sample_scatter := false
  has_scatter_attr := false
  is_modified_concentration := false
  fn2 := fun _ m _ => m
  fn1 := fun _ _ => occ

/-- A concrete galaxy-size relation attribute for witnesses. -/
def relRhalf : RelationObj where
  name := "Read17"
  sample_scatter := true
  has_scatter_attr := true
  is_modified_concentration := false
  fn2 := fun _ m _ => m
  fn1 := fun _ ms => ms / 2

/-- A concrete CDM dark matter model object. -/
def dm0 : DarkMatterObj where
  id := 0
  name := "CDM"
  relations := []
  is_wdm := false
  transfer_function := fun _ => 1
  is_sidm := false
  sigSI := 0

/-- A concrete host object with the given pre-drawn subhalo masses. -/
def host0 (draw : List ℚ) : HostObj where
  id := 0
  name := "MilkyWay"
  relations := []
  number_of_subhalos := draw.length
  subhalo_mass_draw := draw

/-- A concrete satellite population with the given density profile,
occupation mask value and mass draw, with mswitch_profile = 5e8 as in
MilkyWaySatellites.__init__. -/
def pop0 (dp : String) (occ : ℚ) (draw : List ℚ) : SatellitePopulation where
  z_infall := 1
  min_mass := 10000000
  massdef := "200c"
  density_profile := dp
  mswitch_profile := 500000000
  mleft := 1
  dark_matter := dm0
  host := host0 draw
  concentration := relConc
  smhm := relSmhm
  occupation_fraction := relOcc occ
  rhalf_2D := relRhalf
  rels := []
  wdm_uniform_draws := []
  properties := Properties.empty
  params_dark_matter := 0
  params_host := 0

/-- A mixed-profile population with one light and one heavy subhalo. -/
def popMix : SatellitePopulation := pop0 "mix" 1 [100, 900000000]

/-- A mixed-profile population whose occupation mask makes the single
satellite dark. -/
def popDark : SatellitePopulation := pop0 "mix" 0 [100]

/-- A population whose host and dark matter model have both been
reassigned since the parameters dictionary was cached: the cached entries
hold ids 0 while the current objects have ids 1 and 2. -/
def popC10 : SatellitePopulation :=
  { pop0 "nfw" 1 [100] with
      host := { host0 [100] with id := 1 },
      dark_matter := { dm0 with id := 2 } }

/-!
Theorems. Each specification claim C1..C10 has exactly one theorem,
together with a witness theorem when the statement carries hypotheses.
-/

/-- Claim C1: for every Relation instance with sample_scatter set to
False, calling it (SMHM.__call__ or GalaxySize.__call__) on any input
returns exactly the value of central_value on that input, with no random
perturbation applied. -/
theorem call_without_scatter_is_central_value (ops : FloatOps) (r : SMHM)
    (g : GalaxySize) (rand mass z mstar : ℚ) :
    (r.sample_scatter = false →
      SMHM.call ops r rand mass z = r.central_value mass z)
    ∧ (g.sample_scatter = false →
      GalaxySize.call ops g rand mstar = g.central_value mstar) := by
  constructor
  · intro h
    simp [SMHM.call, h]
  · intro h
    simp [GalaxySize.call, h]

/-- Witness for claim C1 at concrete no-scatter instances. -/
theorem call_without_scatter_witness :
    r0.sample_scatter = false ∧ g0.sample_scatter = false
    ∧ SMHM.call ops0 r0 3 7 1 = r0.central_value 7 1
    ∧ GalaxySize.call ops0 g0 3 7 = g0.central_value 7 :=
  ⟨rfl, rfl,
   (call_without_scatter_is_central_value ops0 r0 g0 3 7 1 7).1 rfl,
   (call_without_scatter_is_central_value ops0 r0 g0 3 7 1 7).2 rfl⟩

/-- Claim C5: Moster13.central_value reproduces the published Moster+
2013 formula, with M1 = 10^(11.590 + 1.195*z/(z+1)),
N = 0.0351 - 0.0247*z/(z+1), beta = 1.376 - 0.826*z/(z+1),
gamma = 0.608 + 0.329*z/(z+1). -/
theorem moster13_matches_published_formula (ops : FloatOps) (m z : ℚ) :
    Moster13.central_value ops m z = Moster13_formula_spec ops.fpow m z := by
  simp only [Moster13.central_value, Moster13_formula_spec]
  have h1 : (0.0351 : ℚ) + -0.0247 * z / (z + 1)
      = 0.0351 - 0.0247 * z / (z + 1) := by ring
  have h2 : -((1.376 : ℚ) + -0.826 * z / (z + 1))
      = -(1.376 - 0.826 * z / (z + 1)) := by ring
  rw [h1, h2]

/-- Claim C8: central_value is deterministic given its inputs: evaluated
under any two states of the global RNG, Moster13.central_value and
Read17.central_value return equal values, and neither advances the RNG. -/
theorem central_value_deterministic (ops : FloatOps) (mass z mstar : ℚ)
    (rng1 rng2 : RngState) :
    (Moster13.central_value_rng ops mass z rng1).1
        = (Moster13.central_value_rng ops mass z rng2).1
    ∧ (Read17.central_value_rng ops mstar rng1).1
        = (Read17.central_value_rng ops mstar rng2).1
    ∧ (Moster13.central_value_rng ops mass z rng1).2 = rng1
    ∧ (Read17.central_value_rng ops mstar rng1).2 = rng1 :=
  ⟨rfl, rfl, rfl, rfl⟩

/-- Claim C4: for the SMHM relations with no redshift support (Dooley17,
Brook14, Behroozi13), evaluating central_value at any z different from 0
emits a non-fatal warning and returns the same value as central_value at
z = 0 for the same mass. -/
theorem central_value_z_warning (ops : FloatOps) (tbl : SMHMTables)
    (mass z : ℚ) (h : z ≠ 0) :
    (Dooley17.central_value ops tbl mass z).1 ≠ []
    ∧ (Dooley17.central_value ops tbl mass z).2
        = (Dooley17.central_value ops tbl mass 0).2
    ∧ (Brook14.central_value ops tbl mass z).1 ≠ []
    ∧ (Brook14.central_value ops tbl mass z).2
        = (Brook14.central_value ops tbl mass 0).2
    ∧ (Behroozi13.central_value ops tbl mass z).1 ≠ []
    ∧ (Behroozi13.central_value ops tbl mass z).2
        = (Behroozi13.central_value ops tbl mass 0).2 := by
  refine ⟨?_, rfl, ?_, rfl, ?_, rfl⟩ <;>
    simp [Dooley17.central_value, Brook14.central_value,
      Behroozi13.central_value, h]

/-- Witness for claim C4 at z = 1. -/
theorem central_value_z_warning_witness :
    ((1 : ℚ) ≠ 0)
    ∧ ((Dooley17.central_value ops0 tbl0 5 1).1 ≠ []
      ∧ (Dooley17.central_value ops0 tbl0 5 1).2
          = (Dooley17.central_value ops0 tbl0 5 0).2
      ∧ (Brook14.central_value ops0 tbl0 5 1).1 ≠ []
      ∧ (Brook14.central_value ops0 tbl0 5 1).2
          = (Brook14.central_value ops0 tbl0 5 0).2
      ∧ (Behroozi13.central_value ops0 tbl0 5 1).1 ≠ []
      ∧ (Behroozi13.central_value ops0 tbl0 5 1).2
          = (Behroozi13.central_value ops0 tbl0 5 0).2) :=
  ⟨by norm_num, central_value_z_warning ops0 tbl0 5 1 (by norm_num)⟩

/-- Claim C3: the SMHM wrapper function raises exactly when its model
argument is none of m13, d17, b14, b13, and for a recognized model
returns the chosen relation's value without raising. -/
theorem SMHM_wrapper_cases (ops : FloatOps) (tbl : SMHMTables)
    (rand mhalo z : ℚ) (sc : Bool) (model : String) :
    ((∃ e, SMHM_wrapper ops tbl rand mhalo model z sc = Except.error e)
        ↔ ¬(model = "m13" ∨ model = "d17" ∨ model = "b14" ∨ model = "b13"))
    ∧ (model = "m13" → SMHM_wrapper ops tbl rand mhalo model z sc
        = Except.ok (SMHM.call ops (Moster13.rel ops sc) rand mhalo z))
    ∧ (model = "d17" → SMHM_wrapper ops tbl rand mhalo model z sc
        = Except.ok (SMHM.call ops (Dooley17.rel ops tbl sc) rand mhalo z))
    ∧ (model = "b14" → SMHM_wrapper ops tbl rand mhalo model z sc
        = Except.ok (SMHM.call ops (Brook14.rel ops tbl sc) rand mhalo z))
    ∧ (model = "b13" → SMHM_wrapper ops tbl rand mhalo model z sc
        = Except.ok (SMHM.call ops (Behroozi13.rel ops tbl sc) rand mhalo z)) := by
  unfold SMHM_wrapper
  by_cases h1 : model = "m13" <;> by_cases h2 : model = "d17" <;>
    by_cases h3 : model = "b14" <;> by_cases h4 : model = "b13" <;>
    simp_all

/-- Witness for claim C3: a recognized model returns the relation value,
an unrecognized one raises. -/
theorem SMHM_wrapper_witness :
    ("m13" = "m13" ∨ "m13" = "d17" ∨ "m13" = "b14" ∨ "m13" = "b13")
    ∧ SMHM_wrapper ops0 tbl0 0 100 "m13" 0 false
        = Except.ok (SMHM.call ops0 (Moster13.rel ops0 false) 0 100 0)
    ∧ (∃ e, SMHM_wrapper ops0 tbl0 0 100 "nfw" 0 false = Except.error e) :=
  ⟨Or.inl rfl,
   (SMHM_wrapper_cases ops0 tbl0 0 100 0 false "m13").2.1 rfl,
   ((SMHM_wrapper_cases ops0 tbl0 0 100 0 false "nfw").1).mpr (by decide)⟩

/-- Claim C2: generate_population computes the satellite properties in
the fixed order subhalo mass, concentration, stellar mass, half-light
size, (density-profile tag,) velocity dispersion, and each stage reads
only properties produced by earlier stages: running any stage with every
not-yet-produced properties entry replaced by arbitrary junk reproduces
exactly the entry that generate_population stored. -/
theorem generate_population_stage_order (f : Mvir2SigLOS)
    (s : SatellitePopulation) (junk : Properties) :
    let P := (generate_population f s).properties
    let sA := { s with host := { s.host with
        number_of_subhalos := (_sample_subhalo_masses s).2 } }
    let sB := (_sample_concentrations
        { sA with properties := { junk with mass := P.mass } }).1
    P.mass = (_sample_subhalo_masses { s with properties := junk }).1
    ∧ P.c200 = (_sample_concentrations
        { sA with properties := { junk with mass := P.mass } }).2
    ∧ P.mass_stars = _sample_stellar_masses
        { sB with properties := { junk with mass := P.mass } }
    ∧ P.rhalf2D = _sample_galaxy_sizes
        { sB with properties := { junk with mass_stars := P.mass_stars } }
    ∧ P.density_profile = _assign_density_profiles
        { sB with properties := { junk with mass := P.mass } }
    ∧ P.sigLOS = sample_velocity_dispersions f
        { sB with properties := { junk with
            mass := P.mass, c200 := P.c200, mass_stars := P.mass_stars,
            rhalf2D := P.rhalf2D, density_profile := P.density_profile } } :=
  ⟨rfl, rfl, rfl, rfl, rfl, rfl⟩

/-- Claim C6: when density_profile is not mix, every satellite is tagged
with the configured profile string; when it is mix, the tag is nfw for a
subhalo mass below mswitch_profile and coreNFW otherwise. -/
theorem density_profile_tag_assignment (f : Mvir2SigLOS)
    (s : SatellitePopulation) :
    (s.density_profile ≠ "mix" →
      ∀ tag ∈ (generate_population f s).properties.density_profile,
        tag = s.density_profile)
    ∧ (s.density_profile = "mix" →
      (generate_population f s).properties.density_profile
        = (generate_population f s).properties.mass.map
            (fun m => if m < s.mswitch_profile then "nfw" else "coreNFW")) := by
  have e : (generate_population f s).properties.density_profile
      = if s.density_profile ≠ "mix" then
          List.replicate (_sample_subhalo_masses s).2 s.density_profile
        else (generate_population f s).properties.mass.map
            (fun m => if m < s.mswitch_profile then "nfw" else "coreNFW") := rfl
  constructor
  · intro h tag htag
    rw [e, if_pos h] at htag
    exact List.eq_of_mem_replicate htag
  · intro h
    rw [e, if_neg (not_not_intro h)]

/-- Witness for claim C6 on a concrete mixed-profile population with one
subhalo below and one above mswitch_profile. -/
theorem density_profile_tag_witness :
    popMix.density_profile = "mix"
    ∧ (generate_population f0 popMix).properties.density_profile
        = (generate_population f0 popMix).properties.mass.map
            (fun m => if m < popMix.mswitch_profile then "nfw" else "coreNFW")
    ∧ (generate_population f0 popMix).properties.density_profile
        = ["nfw", "coreNFW"] :=
  ⟨rfl, (density_profile_tag_assignment f0 popMix).2 rfl, by decide⟩

/-- The single assignment performed by set_scatter leaves the properties
dictionary unchanged. -/
theorem setScatterByName_properties (st : SatellitePopulation) (n : String)
    (b : Bool) : (setScatterByName st n b).properties = st.properties := by
  unfold setScatterByName
  repeat' split
  all_goals rfl

/-- The set_scatter assignment loop leaves the properties dictionary
unchanged. -/
theorem setScatter_foldl_properties (sources : List (String × Bool)) :
    ∀ st : SatellitePopulation,
      (sources.foldl (fun acc p => setScatterByName acc p.1 p.2) st).properties
        = st.properties := by
  induction sources with
  | nil => intro st; rfl
  | cons p ps ih =>
      intro st
      rw [List.foldl_cons, ih, setScatterByName_properties]

/-- Claim C7: the properties mapping is populated by generate_population
and never mutated by any other operation of the class: together with
get_input_parameters, print_input_parameters, get_relations,
print_relations, sources_of_scatter and set_scatter leave every
properties array unchanged. -/
theorem accessors_preserve_properties (s : SatellitePopulation)
    (sources : List (String × Bool)) :
    (get_input_parameters s).1.properties = s.properties
    ∧ (print_input_parameters s).1.properties = s.properties
    ∧ (get_relations s).1.properties = s.properties
    ∧ (print_relations s).1.properties = s.properties
    ∧ (sources_of_scatter s).1.properties = s.properties
    ∧ (set_scatter s sources).properties = s.properties := by
  refine ⟨rfl, rfl, rfl, rfl, rfl, ?_⟩
  show (sources.foldl (fun acc p => setScatterByName acc p.1 p.2)
      (get_relations s).1).properties = s.properties
  rw [setScatter_foldl_properties]
  rfl

/-- An indexed elementwise map whose function sends 0 to 0 sends an entry
read as 0 (in range or out of range) to 0. -/
theorem listIdxMap_getD_zero (g : ℕ → ℚ → ℚ) (hg : ∀ i, g i 0 = 0) :
    ∀ (l : List ℚ) (k i : ℕ), l.getD i 0 = 0 →
      (listIdxMap g k l).getD i 0 = 0 := by
  intro l
  induction l with
  | nil => intro k i _; rfl
  | cons a as ih =>
      intro k i h
      cases i with
      | zero =>
          simp only [List.getD_cons_zero] at h
          show (g k a :: listIdxMap g (k + 1) as).getD 0 0 = 0
          simp only [List.getD_cons_zero]
          rw [h]
          exact hg k
      | succ j =>
          simp only [List.getD_cons_succ] at h
          show (g k a :: listIdxMap g (k + 1) as).getD (j + 1) 0 = 0
          simp only [List.getD_cons_succ]
          exact ih (k + 1) j h

/-- A five-array elementwise combination whose function returns 0
whenever its second argument is 0 returns 0 at every position where the
second array reads 0. -/
theorem zip5With_getD_zero (f : ℚ → ℚ → ℚ → ℚ → String → ℚ)
    (hf : ∀ a c d e, f a 0 c d e = 0) :
    ∀ (as bs cs ds : List ℚ) (es : List String) (i : ℕ),
      bs.getD i 0 = 0 → (zip5With f as bs cs ds es).getD i 0 = 0 := by
  intro as
  induction as with
  | nil => intro bs cs ds es i _; rfl
  | cons a as ih =>
      intro bs cs ds es i h
      cases bs with
      | nil => rfl
      | cons b bs =>
          cases cs with
          | nil => rfl
          | cons c cs =>
              cases ds with
              | nil => rfl
              | cons d ds =>
                  cases es with
                  | nil => rfl
                  | cons e es =>
                      cases i with
                      | zero =>
                          simp only [List.getD_cons_zero] at h
                          show (f a b c d e ::
                              zip5With f as bs cs ds es).getD 0 0 = 0
                          simp only [List.getD_cons_zero]
                          rw [h]
                          exact hf a c d e
                      | succ j =>
                          simp only [List.getD_cons_succ] at h
                          show (f a b c d e ::
                              zip5With f as bs cs ds es).getD (j + 1) 0 = 0
                          simp only [List.getD_cons_succ]
                          exact ih bs cs ds es j h

/-- Claim C9: after generate_population, every satellite with zero
stellar mass has half-light radius 0, and, when density_profile is mix,
also velocity dispersion 0. -/
theorem dark_galaxy_zero_size_and_sigma (f : Mvir2SigLOS)
    (s : SatellitePopulation) (i : ℕ)
    (h : (generate_population f s).properties.mass_stars.getD i 0 = 0) :
    (generate_population f s).properties.rhalf2D.getD i 0 = 0
    ∧ (s.density_profile = "mix" →
        (generate_population f s).properties.sigLOS.getD i 0 = 0) := by
  constructor
  · have e : (generate_population f s).properties.rhalf2D
        = listIdxMap (fun j ms => if 0 < ms then s.rhalf_2D.fn1 j ms else 0) 0
            ((generate_population f s).properties.mass_stars) := rfl
    rw [e]
    exact listIdxMap_getD_zero _ (fun j => by simp) _ 0 i h
  · intro hmix
    have e : (generate_population f s).properties.sigLOS
        = if s.density_profile ≠ "mix" then
            zip4With
              (fun m ms r c => f m s.density_profile s.mleft s.z_infall ms r c
                (c_model_short s.concentration.name)
                (if s.dark_matter.is_sidm then some s.dark_matter.sigSI else none))
              ((generate_population f s).properties.mass)
              ((generate_population f s).properties.mass_stars)
              ((generate_population f s).properties.rhalf2D)
              ((generate_population f s).properties.c200)
          else
            zip5With
              (fun m ms r c tag =>
                if 0 < ms ∧ tag = "coreNFW" then
                  f m "coreNFW" s.mleft s.z_infall ms r c
                    (c_model_short s.concentration.name) none
                else if 0 < ms ∧ tag = "nfw" then
                  f m "nfw" s.mleft s.z_infall ms r c
                    (c_model_short s.concentration.name) none
                else 0)
              ((generate_population f s).properties.mass)
              ((generate_population f s).properties.mass_stars)
              ((generate_population f s).properties.rhalf2D)
              ((generate_population f s).properties.c200)
              ((generate_population f s).properties.density_profile) := rfl
    rw [e, if_neg (not_not_intro hmix)]
    exact zip5With_getD_zero _ (fun a c d e => by simp) _ _ _ _ _ i h

/-- Witness for claim C9 on a concrete population whose only satellite is
dark (occupation mask 0). -/
theorem dark_galaxy_zero_witness :
    (generate_population f0 popDark).properties.mass_stars.getD 0 0 = 0
    ∧ ((generate_population f0 popDark).properties.rhalf2D.getD 0 0 = 0
      ∧ (popDark.density_profile = "mix" →
          (generate_population f0 popDark).properties.sigLOS.getD 0 0 = 0)) :=
  ⟨by show (100 : ℚ) / 100 * 0 = 0; norm_num,
   dark_galaxy_zero_size_and_sigma f0 popDark 0
     (by show (100 : ℚ) / 100 * 0 = 0; norm_num)⟩

/-- Claim C10 (refuted: the code has a slip): after get_relations on a
population whose host and dark matter model were both reassigned since
the parameters dictionary was cached, the dark_matter cache entry is
resynchronized but the host cache entry is not: source line 68 reads
`self.parameters['host'] == self.host`, a comparison with no effect,
where the dark-matter branch (line 62) performs an assignment. -/
theorem get_relations_host_param_stale :
    ((get_relations popC10).1.params_host = 0
      ∧ (get_relations popC10).1.host.id = 1)
    ∧ (get_relations popC10).1.params_dark_matter
        = (get_relations popC10).1.dark_matter.id := by
  decide
